import Mathlib

/-!
Verification of the event-stream monitoring formatter (`cmd/incus/monitor.go`).

The Go source is shallowly embedded below:
* `unpackCtx` mirrors `(*cmdMonitor).unpackCtx`,
* `parseLevel` mirrors `logrus.ParseLevel` together with the numeric
  `logrus.Level` constants (`panic = 0 < fatal < error < warn < info < debug
  < trace = 6`),
* `handler` mirrors the event callback closure built inside
  `(*cmdMonitor).Run` (lines 125-212),
* `runSetup` mirrors the sequential setup phase of `(*cmdMonitor).Run`
  (lines 61-217), with the external collaborators (remote parsing, server
  connection, feed opening, handler registration) abstracted as oracles
  recording success or failure,
* `signals`/`runReturn` model the capacity-1 error channel `chError` that
  bridges the renderer callback and the feed wait goroutine back to the
  synchronous return of `Run` (lines 123, 219-223).
-/

set_option autoImplicit false

/-- A Go value appearing in a log record's `Ctx []any` slice.  The renderer
only ever looks at the `fmt.Sprintf("%v", ·)` display string of such a value,
so a small vocabulary of scalar shapes suffices. -/
inductive Tok where
  | str (s : String)
  | num (n : Int)
  | boolean (b : Bool)
  deriving DecidableEq, Repr

/-- The display-string coercion `fmt.Sprintf("%v", entry)` applied to a
context token. -/
def Tok.display : Tok → String
  | .str s => s
  | .num n => toString n
  | .boolean b => if b then "true" else "false"

/-- Go-map style insertion into an association list: if the key is present its
value is replaced (last-write-wins), otherwise the pair is appended.  This
models assignment into the `logrus.Fields` map `out[key] = ...`. -/
def insertKV (out : List (String × String)) (k v : String) : List (String × String) :=
  if out.any (fun p => p.1 = k) then
    out.map (fun p => if p.1 = k then (k, v) else p)
  else
    out ++ [(k, v)]

/-- The loop body state of `unpackCtx`: `out` is the accumulated field map and
`key` is the pending key (`""` means no key is pending).  Mirrors the `for`
loop of `(*cmdMonitor).unpackCtx` (monitor.go lines 229-237). -/
def unpackCtxAux (out : List (String × String)) (key : String) :
    List Tok → List (String × String)
  | [] => out
  | entry :: rest =>
    if key = "" then
      unpackCtxAux out entry.display rest
    else
      unpackCtxAux (insertKV out key entry.display) "" rest

/-- `(*cmdMonitor).unpackCtx` (monitor.go lines 226-240): converts the flat
token sequence of a log record into a key/value field map. -/
def unpackCtx (ctx : List Tok) : List (String × String) :=
  unpackCtxAux [] "" ctx

/-- The spec's description of the Context Unpacker, written from its words
(for comparison with `unpackCtx`): consume the sequence as strictly
alternating `(key, value)` pairs in arrival order, coerce both to display
strings, drop a final unmatched key, resolve duplicates last-write-wins. -/
def unpackSpecAux (out : List (String × String)) :
    List Tok → List (String × String)
  | [] => out
  | [_] => out
  | k :: v :: rest => unpackSpecAux (insertKV out k.display v.display) rest

/-- Entry point of the spec-side pairing description. -/
def unpackSpec (ctx : List Tok) : List (String × String) :=
  unpackSpecAux [] ctx

/-- A token sequence in which every token consumed at a key position has a
nonempty display string (checked pairwise; an odd trailing key is also
checked). -/
def keysNonEmpty : List Tok → Bool
  | [] => true
  | [k] => k.display != ""
  | k :: _ :: rest => (k.display != "") && keysNonEmpty rest

/-- ASCII lowercasing of one character, as `strings.ToLower` acts on the
letters that can occur in a severity token. -/
def lowerChar (c : Char) : Char :=
  if 'A' ≤ c ∧ c ≤ 'Z' then Char.ofNat (c.toNat + 32) else c

/-- ASCII lowercasing of a string (the effect of `strings.ToLower` on the
severity vocabulary). -/
def lowerStr (s : String) : String :=
  ⟨s.data.map lowerChar⟩

/-- `logrus.ParseLevel` restricted to its result level number: the severity
vocabulary with `panic = 0`, `fatal = 1`, `error = 2`, `warn/warning = 3`,
`info = 4`, `debug = 5`, `trace = 6`; matching is case-insensitive; any other
token is a parse failure. -/
def parseLevel (s : String) : Option Nat :=
  match lowerStr s with
  | "panic" => some 0
  | "fatal" => some 1
  | "error" => some 2
  | "warn" => some 3
  | "warning" => some 3
  | "info" => some 4
  | "debug" => some 5
  | "trace" => some 6
  | _ => none

/-- `api.EventLogRecord`, the decoded form of a logging event produced by
`event.ToLogging()`: timestamp (kept abstract as a string), level token,
message, flat context token sequence. -/
structure LogRecord where
  time : String
  lvl : String
  msg : String
  ctx : List Tok
  deriving DecidableEq, Repr

/-- The `logrus.Entry` assembled by the pretty path of the handler before it
is formatted and printed: its timestamp, numeric level, composed message and
unpacked context fields (monitor.go lines 151-165). -/
structure Entry where
  time : String
  level : Nat
  message : String
  data : List (String × String)
  deriving DecidableEq, Repr

/-- An inbound `api.Event` as the handler observes it.  The opaque payload is
abstracted by the outcomes of the operations the handler applies to it:
`logging` is the result of `event.ToLogging()` (`none` = decode error);
`marshalEvent` is the result of `json.Marshal(&event)`; `unmarshalOk` records
whether `json.Unmarshal` of that rendering into a clean `any` succeeds;
`renderYaml`/`renderJson` are the results of re-encoding the clean interface
value with `yaml.Marshal`/`json.Marshal` (`none` = encode error). -/
structure EventModel where
  type : String
  location : String
  logging : Option LogRecord
  marshalEvent : Option String
  unmarshalOk : Bool
  renderYaml : Option String
  renderJson : Option String
  deriving DecidableEq, Repr

/-- What one handler invocation did: reported an error on `chError`, returned
silently with no output (the log-level filter), rendered a pretty log entry to
standard output, or wrote a structured rendering to standard output. -/
inductive HandlerResult where
  | errored (msg : String)
  | suppressed
  | rendered (e : Entry)
  | printed (s : String)
  deriving DecidableEq, Repr

/-- The event callback closure built inside `(*cmdMonitor).Run` (monitor.go
lines 125-212), closed over the resolved `format`, the parsed `logLevel`
threshold and the clustering flag `d.IsClustered()`.  A `rendered e` result
stands for `fmt.Print` of the `logrus.TextFormatter` line for entry `e`; a
`printed s` result stands for `fmt.Printf` of exactly the string `s`. -/
def handler (format : String) (logLevel : Nat) (clustered : Bool)
    (ev : EventModel) : HandlerResult :=
  if format = "pretty" then
    match ev.logging with
    | none => .errored "ToLogging failed"
    | some record =>
      let lvl := if record.lvl = "dbug" then "debug" else record.lvl
      match parseLevel lvl with
      | none => .errored ("not a valid logrus Level: " ++ lvl)
      | some msgLevel =>
        if msgLevel > logLevel then
          .suppressed
        else
          let message :=
            if ev.type = "logging" ∧ clustered then
              "[" ++ ev.location ++ "] " ++ record.msg
            else
              record.msg
          .rendered ⟨record.time, msgLevel, message, unpackCtx record.ctx⟩
  else
    match ev.marshalEvent with
    | none => .errored "json.Marshal failed"
    | some _ =>
      if ev.unmarshalOk then
        let render : Option String :=
          match format with
          | "yaml" => ev.renderYaml
          | "json" => ev.renderJson
          | _ => some ""
        match render with
        | none => .errored "render failed"
        | some r => .printed (r ++ "\n\n")
      else
        .errored "json.Unmarshal failed"

/-- The flag fields of `cmdMonitor` as cobra populates them before `Run` is
invoked (monitor.go lines 23-27). -/
structure MonitorFlags where
  flagType : List String
  flagPretty : Bool
  flagLogLevel : String
  flagAllProjects : Bool
  flagFormat : String
  deriving DecidableEq, Repr

/-- Outcomes of the external collaborators consulted by `Run`, in the order
the code consults them: remote parsing (`conf.ParseRemote`), connecting
(`conf.GetInstanceServer`), opening the event feed (`d.GetEvents` /
`d.GetEventsAllProjects`), and registering the callback
(`listener.AddHandler`).  `none` means success, `some e` failure with error
`e`. -/
structure Env where
  parseRemote : Option String
  getServer : Option String
  getEvents : Option String
  addHandler : Option String
  deriving DecidableEq, Repr

/-- The error `Run` returns when its setup phase fails. -/
inductive RunErr where
  | invalidFormat (s : String)
  | logLevelConflict
  | external (msg : String)
  | badLogLevel (s : String)
  deriving DecidableEq, Repr

/-- Observable outcome of the setup phase of `Run`: the error returned (or
`none` if setup completed and the session went active), whether the event
feed was opened, whether the handler was registered, the resolved format, and
the numeric log-level threshold in force. -/
structure SetupResult where
  outcome : Option RunErr
  feedOpened : Bool
  handlerRegistered : Bool
  resolvedFormat : String
  threshold : Nat
  deriving DecidableEq, Repr

/-- The part of `Run` that follows the two configuration checks, in source
order: remote parsing, server connection, feed opening (lines 87-113),
log-level parsing with default `logrus.DebugLevel = 5` (lines 115-121), and
handler registration (line 214).  `fmt` is the resolved format and
`logLevelStr` the raw `--loglevel` flag value. -/
def runSetupTail (fmt : String) (logLevelStr : String) (env : Env) : SetupResult :=
  match env.parseRemote with
  | some e => ⟨some (.external e), false, false, fmt, 5⟩
  | none =>
    match env.getServer with
    | some e => ⟨some (.external e), false, false, fmt, 5⟩
    | none =>
      match env.getEvents with
      | some e => ⟨some (.external e), false, false, fmt, 5⟩
      | none =>
        match (if logLevelStr = "" then some 5 else parseLevel logLevelStr) with
        | none => ⟨some (.badLogLevel logLevelStr), true, false, fmt, 5⟩
        | some lvl =>
          match env.addHandler with
          | some e => ⟨some (.external e), true, false, fmt, lvl⟩
          | none => ⟨none, true, true, fmt, lvl⟩

/-- The sequential setup phase of `(*cmdMonitor).Run` (monitor.go lines
61-217), step by step in source order: format validity check (line 73), the
pretty-shorthand override (line 78), the log-level/format conflict check
(line 82), then the externally-interacting steps of `runSetupTail`. -/
def runSetup (c : MonitorFlags) (env : Env) : SetupResult :=
  if ¬ (c.flagFormat = "json" ∨ c.flagFormat = "pretty" ∨ c.flagFormat = "yaml") then
    ⟨some (.invalidFormat c.flagFormat), false, false, c.flagFormat, 5⟩
  else
    let fmt := if c.flagPretty then "pretty" else c.flagFormat
    if fmt ≠ "pretty" ∧ c.flagLogLevel ≠ "" then
      ⟨some .logLevelConflict, false, false, fmt, 5⟩
    else
      runSetupTail fmt c.flagLogLevel env

/-- A run of the active session phase, abstracting the interleaving of the
two producers that write to the capacity-1 channel `chError` (monitor.go
lines 123, 219-223): `rendererErrors` are the errors the handler reports, in
delivery order; `waitResult` is `listener.Wait()` (`none` = clean feed
close); `k` is how many renderer errors were sent before the wait goroutine's
send. -/
structure SessionTrace where
  rendererErrors : List String
  waitResult : Option String
  k : Nat
  deriving DecidableEq, Repr

/-- The chronological order of values sent on `chError` for a trace: the
renderer errors before the wait signal, the wait result, then any later
renderer errors.  A `some e` signal is a renderer-reported error, the `none`
or `some e` at position `k` is the feed termination result. -/
def signals (t : SessionTrace) : List (Option String) :=
  (t.rendererErrors.take t.k).map some ++
    t.waitResult :: (t.rendererErrors.drop t.k).map some

/-- The value `return <-chError` yields: the first value sent on the
capacity-1 channel. -/
def runReturn (t : SessionTrace) : Option String :=
  (signals t).headI

example : unpackCtx [Tok.str "a", Tok.num 1, Tok.str "b", Tok.num 2] =
    [("a", "1"), ("b", "2")] := by decide

example : unpackCtx [Tok.str "a", Tok.num 1, Tok.str "b"] = [("a", "1")] := by decide

example : unpackCtx [] = [] := by decide

example : unpackCtx [Tok.str "", Tok.str "x", Tok.str "y"] = [("x", "y")] := by decide

example : unpackSpec [Tok.str "", Tok.str "x", Tok.str "y"] = [("", "x")] := by decide

example : parseLevel "info" = some 4 := by decide

example : parseLevel "verbose" = none := by decide

example : parseLevel "DeBuG" = some 5 := by decide

theorem unpackCtxAux_eq_spec : ∀ (l : List Tok), keysNonEmpty l = true →
    ∀ out : List (String × String), unpackCtxAux out "" l = unpackSpecAux out l
  | [], _, _ => rfl
  | [k], h, out => by
    have hk : k.display ≠ "" := by simpa [keysNonEmpty] using h
    simp [unpackCtxAux, unpackSpecAux, hk]
  | k :: v :: rest, h, out => by
    have hk : k.display ≠ "" := by
      have := h
      simp [keysNonEmpty, Bool.and_eq_true] at this
      exact this.1
    have hrest : keysNonEmpty rest = true := by
      have := h
      simp [keysNonEmpty, Bool.and_eq_true] at this
      exact this.2
    calc unpackCtxAux out "" (k :: v :: rest)
        = unpackCtxAux out k.display (v :: rest) := by
          simp [unpackCtxAux]
      _ = unpackCtxAux (insertKV out k.display v.display) "" rest := by
          simp [unpackCtxAux, hk]
      _ = unpackSpecAux (insertKV out k.display v.display) rest :=
          unpackCtxAux_eq_spec rest hrest _
      _ = unpackSpecAux out (k :: v :: rest) := by
          simp [unpackSpecAux]

/-- Claim C4 (corrected at the empty-display-key edge): as stated, the claim
is false — `unpackCtx` does not treat *every* sequence as strictly
alternating `(key, value)` pairs, because a key position whose display string
is empty is skipped (see C10).  At the concrete input
`["", "x", "y"]` the strict-pairing reading yields the map with entry
`("", "x")` (trailing `"y"` dropped) while the code produces `("x", "y")`. -/
theorem unpackCtx_pairing_counterexample :
    unpackCtx [Tok.str "", Tok.str "x", Tok.str "y"] = [("x", "y")] ∧
    unpackSpec [Tok.str "", Tok.str "x", Tok.str "y"] = [("", "x")] ∧
    unpackCtx [Tok.str "", Tok.str "x", Tok.str "y"] ≠
      unpackSpec [Tok.str "", Tok.str "x", Tok.str "y"] := by
  decide

/-- Claim C4 (amended): for every input token sequence in which no token
consumed at a key position displays as the empty string, the Context Unpacker
treats the sequence as alternating `(key, value)` pairs in arrival order,
coerces keys and values to their display strings, drops a final unmatched
key when the length is odd, resolves duplicate keys last-write-wins, and
always succeeds; in particular `unpack [a,1,b,2] = [(a,"1"),(b,"2")]`,
`unpack [a,1,b] = [(a,"1")]`, `unpack [] = []`, and a duplicated key keeps
the last value. -/
theorem unpackCtx_pairing :
    (∀ l : List Tok, keysNonEmpty l = true → unpackCtx l = unpackSpec l) ∧
    unpackCtx [Tok.str "a", Tok.num 1, Tok.str "b", Tok.num 2] =
      [("a", "1"), ("b", "2")] ∧
    unpackCtx [Tok.str "a", Tok.num 1, Tok.str "b"] = [("a", "1")] ∧
    unpackCtx [] = [] ∧
    unpackCtx [Tok.str "a", Tok.num 1, Tok.str "a", Tok.num 2] = [("a", "2")] := by
  refine ⟨fun l h => unpackCtxAux_eq_spec l h [], ?_, ?_, ?_, ?_⟩ <;> decide

/-- Witness for the amended C4: the hypothesis holds at the concrete input
`[a, 1, b, 2]` and the code agrees with the strict-pairing reading there. -/
theorem unpackCtx_pairing_witness :
    keysNonEmpty [Tok.str "a", Tok.num 1, Tok.str "b", Tok.num 2] = true ∧
    unpackCtx [Tok.str "a", Tok.num 1, Tok.str "b", Tok.num 2] =
      unpackSpec [Tok.str "a", Tok.num 1, Tok.str "b", Tok.num 2] :=
  ⟨by decide, unpackCtx_pairing.1 _ (by decide)⟩

/-- Claim C10: in the Context Unpacker, a token arriving at a key position
(no key pending) whose display string is empty is not used as a key: the
empty string is the internal no-key-pending sentinel, so the token is
skipped and the rest of the sequence is processed as if it were absent — the
following token becomes the next key, shifting the pairing away from strict
positional alternation. -/
theorem unpackCtx_empty_key_skipped :
    ∀ (out : List (String × String)) (e : Tok) (rest : List Tok),
      e.display = "" →
      unpackCtxAux out "" (e :: rest) = unpackCtxAux out "" rest := by
  intro out e rest he
  simp [unpackCtxAux, he]

/-- Witness for C10: the empty-display token `Tok.str ""` is skipped, so the
following tokens pair up as `("x", "y")`. -/
theorem unpackCtx_empty_key_skipped_witness :
    (Tok.str "").display = "" ∧
    unpackCtxAux [] "" [Tok.str "", Tok.str "x", Tok.str "y"] =
      unpackCtxAux [] "" [Tok.str "x", Tok.str "y"] :=
  ⟨rfl, unpackCtx_empty_key_skipped [] (Tok.str "") [Tok.str "x", Tok.str "y"] rfl⟩

/-- Claim C3: in the structured (json or yaml) path, for every event whose
serialization pipeline succeeds (the event marshals, the rendering reads
back into a clean interface, and the format-specific re-encoding succeeds
with rendered text `r`), the handler writes exactly `r` followed by the
two-newline separator to standard output — the rendered text followed by one
blank separator line between successive events — and reports no error. -/
theorem handler_structured_blank_separator
    (format : String) (logLevel : Nat) (clustered : Bool) (ev : EventModel)
    (s r : String)
    (hm : ev.marshalEvent = some s) (hu : ev.unmarshalOk = true)
    (hr : (format = "json" ∧ ev.renderJson = some r) ∨
          (format = "yaml" ∧ ev.renderYaml = some r)) :
    handler format logLevel clustered ev = .printed (r ++ "\n\n") := by
  rcases hr with ⟨hf, hrr⟩ | ⟨hf, hrr⟩ <;> subst hf <;>
    simp [handler, hm, hu, hrr]

/-- Witness for C3: a concrete lifecycle event rendered as json. -/
theorem handler_structured_blank_separator_witness :
    (⟨"lifecycle", "n1", none, some "m", true, some "y", some "j"⟩ :
        EventModel).marshalEvent = some "m" ∧
    handler "json" 5 false
      ⟨"lifecycle", "n1", none, some "m", true, some "y", some "j"⟩ =
      .printed ("j" ++ "\n\n") :=
  ⟨rfl, handler_structured_blank_separator "json" 5 false _ "m" "j" rfl rfl
    (Or.inl ⟨rfl, rfl⟩)⟩

/-- Claim C5: in the pretty path, a record whose parsed severity number is
greater than the configured threshold (less severe, debug-at-bottom) is
suppressed — no output, no error; a record at or above the threshold is
rendered. -/
theorem handler_level_filter
    (logLevel : Nat) (clustered : Bool) (ev : EventModel)
    (record : LogRecord) (msgLevel : Nat)
    (hl : ev.logging = some record)
    (hp : parseLevel (if record.lvl = "dbug" then "debug" else record.lvl) =
      some msgLevel) :
    (msgLevel > logLevel → handler "pretty" logLevel clustered ev = .suppressed) ∧
    (msgLevel ≤ logLevel → ∃ e : Entry,
      handler "pretty" logLevel clustered ev = .rendered e ∧ e.level = msgLevel) := by
  constructor
  · intro hgt
    simp [handler, hl, hp, hgt]
  · intro hle
    refine ⟨⟨record.time, msgLevel,
      if ev.type = "logging" ∧ clustered then
        "[" ++ ev.location ++ "] " ++ record.msg
      else record.msg, unpackCtx record.ctx⟩, ?_, rfl⟩
    simp [handler, hl, hp, Nat.not_lt.mpr hle]

/-- Witness for C5: with threshold `info` (4) a `debug` record is suppressed
and an `error` record is rendered. -/
theorem handler_level_filter_witness :
    handler "pretty" 4 false
      ⟨"logging", "n1", some ⟨"t0", "debug", "msg", []⟩, none, false, none, none⟩ =
      .suppressed ∧
    (∃ e : Entry, handler "pretty" 4 false
      ⟨"logging", "n1", some ⟨"t0", "error", "msg", []⟩, none, false, none, none⟩ =
      .rendered e ∧ e.level = 2) :=
  ⟨(handler_level_filter 4 false _ ⟨"t0", "debug", "msg", []⟩ 5 rfl
      (by decide)).1 (by decide),
   (handler_level_filter 4 false _ ⟨"t0", "error", "msg", []⟩ 2 rfl
      (by decide)).2 (by decide)⟩

/-- Claim C6: in the pretty path, a record whose level token is the alias
`dbug` is normalized to `debug` before severity parsing; with threshold
`debug` (5) such a record is rendered at level `debug`, not suppressed and
not a parse failure. -/
theorem handler_dbug_alias
    (clustered : Bool) (ev : EventModel) (record : LogRecord)
    (hl : ev.logging = some record) (hd : record.lvl = "dbug") :
    ∃ e : Entry, handler "pretty" 5 clustered ev = .rendered e ∧ e.level = 5 := by
  refine ⟨⟨record.time, 5,
    if ev.type = "logging" ∧ clustered then
      "[" ++ ev.location ++ "] " ++ record.msg
    else record.msg, unpackCtx record.ctx⟩, ?_, rfl⟩
  simp [handler, hl, hd, parseLevel, lowerStr, lowerChar]

/-- Witness for C6: a concrete `dbug` record under threshold `debug`. -/
theorem handler_dbug_alias_witness :
    (⟨"logging", "n1", some ⟨"t0", "dbug", "msg", []⟩, none, false, none, none⟩ :
        EventModel).logging = some ⟨"t0", "dbug", "msg", []⟩ ∧
    ∃ e : Entry, handler "pretty" 5 false
      ⟨"logging", "n1", some ⟨"t0", "dbug", "msg", []⟩, none, false, none, none⟩ =
      .rendered e ∧ e.level = 5 :=
  ⟨rfl, handler_dbug_alias false _ ⟨"t0", "dbug", "msg", []⟩ rfl rfl⟩

/-- Claim C7: in the pretty path, for every rendered event the displayed
message carries the event's location in brackets exactly when the event's
type is the logging type and the deployment is multi-node (clustered); in
every other case the record's message is used unchanged. -/
theorem handler_location_brackets
    (logLevel : Nat) (clustered : Bool) (ev : EventModel)
    (record : LogRecord) (msgLevel : Nat)
    (hl : ev.logging = some record)
    (hp : parseLevel (if record.lvl = "dbug" then "debug" else record.lvl) =
      some msgLevel)
    (hle : msgLevel ≤ logLevel) :
    ∃ e : Entry, handler "pretty" logLevel clustered ev = .rendered e ∧
      e.message = (if ev.type = "logging" ∧ clustered then
        "[" ++ ev.location ++ "] " ++ record.msg else record.msg) := by
  refine ⟨⟨record.time, msgLevel,
    if ev.type = "logging" ∧ clustered then
      "[" ++ ev.location ++ "] " ++ record.msg
    else record.msg, unpackCtx record.ctx⟩, ?_, rfl⟩
  simp [handler, hl, hp, Nat.not_lt.mpr hle]

/-- Witness for C7: the same logging record rendered clustered and
non-clustered; the location brackets appear exactly in the clustered case. -/
theorem handler_location_brackets_witness :
    (∃ e : Entry, handler "pretty" 5 true
      ⟨"logging", "n1", some ⟨"t0", "info", "msg", []⟩, none, false, none, none⟩ =
      .rendered e ∧ e.message = (if ("logging" : String) = "logging" ∧ true then
        "[" ++ "n1" ++ "] " ++ "msg" else "msg")) ∧
    (∃ e : Entry, handler "pretty" 5 false
      ⟨"logging", "n1", some ⟨"t0", "info", "msg", []⟩, none, false, none, none⟩ =
      .rendered e ∧ e.message = (if ("logging" : String) = "logging" ∧ false then
        "[" ++ "n1" ++ "] " ++ "msg" else "msg")) :=
  ⟨handler_location_brackets 5 true _ ⟨"t0", "info", "msg", []⟩ 4 rfl
      (by decide) (by decide),
   handler_location_brackets 5 false _ ⟨"t0", "info", "msg", []⟩ 4 rfl
      (by decide) (by decide)⟩

theorem runSetupTail_format (fmt ll : String) (env : Env) :
    (runSetupTail fmt ll env).resolvedFormat = fmt := by
  rcases env with ⟨pr, gs, ge, ah⟩
  cases pr <;> cases gs <;> cases ge <;> cases ah <;>
    simp only [runSetupTail] <;>
    rcases h : (if ll = "" then some 5 else parseLevel ll) with _ | lvl <;>
    simp [h]

/-- Claim C1 (corrected on the feed-opening point): as stated, the claim is
false — an unparseable `--loglevel` token is only detected *after* the event
feed has been opened.  At the concrete configuration
`format = pretty, loglevel = "verbose"` with all external steps succeeding,
the run fails with the log-level parse error, yet the feed was opened. -/
theorem runSetup_bad_loglevel_counterexample :
    runSetup ⟨[], false, "verbose", false, "pretty"⟩ ⟨none, none, none, none⟩ =
      ⟨some (.badLogLevel "verbose"), true, false, "pretty", 5⟩ ∧
    (runSetup ⟨[], false, "verbose", false, "pretty"⟩
      ⟨none, none, none, none⟩).feedOpened = true := by
  constructor <;> decide

/-- Claim C1 (amended): if a log-level threshold string is supplied but does
not parse into a known severity token (and the earlier checks pass and the
external steps succeed), the run fails with the parse error before the
handler is registered: the error is reported immediately, no handler is ever
registered and no events are processed — but the feed has already been
opened when the token is parsed. -/
theorem runSetup_bad_loglevel
    (c : MonitorFlags) (env : Env)
    (hvalid : c.flagFormat = "json" ∨ c.flagFormat = "pretty" ∨
      c.flagFormat = "yaml")
    (hfmt : (if c.flagPretty then "pretty" else c.flagFormat) = "pretty")
    (hll : c.flagLogLevel ≠ "")
    (hparse : parseLevel c.flagLogLevel = none)
    (h1 : env.parseRemote = none) (h2 : env.getServer = none)
    (h3 : env.getEvents = none) :
    runSetup c env =
      ⟨some (.badLogLevel c.flagLogLevel), true, false, "pretty", 5⟩ := by
  unfold runSetup
  rw [if_neg (not_not_intro hvalid)]
  simp only [hfmt]
  rw [if_neg (by simp)]
  simp [runSetupTail, h1, h2, h3, hll, hparse]

/-- Witness for the amended C1: the hypotheses hold at
`format = pretty, loglevel = "verbose"` with an all-success environment. -/
theorem runSetup_bad_loglevel_witness :
    parseLevel "verbose" = none ∧
    runSetup ⟨[], false, "verbose", false, "pretty"⟩ ⟨none, none, none, none⟩ =
      ⟨some (.badLogLevel "verbose"), true, false, "pretty", 5⟩ :=
  ⟨by decide,
   runSetup_bad_loglevel ⟨[], false, "verbose", false, "pretty"⟩
     ⟨none, none, none, none⟩ (Or.inr (Or.inl rfl)) rfl (by decide) (by decide)
     rfl rfl rfl⟩

/-- Claim C2 (corrected on invalid explicit formats): as stated ("for every
explicit format value"), the claim is false — the format-validity check runs
*before* the pretty-shorthand override, so an invalid explicit format fails
validation even when the pretty flag is set, instead of being overridden to
pretty.  With `format = "csv", pretty = true`, the run fails with the
invalid-format error although the pretty-format run would have succeeded. -/
theorem runSetup_pretty_flag_counterexample :
    runSetup ⟨[], true, "", false, "csv"⟩ ⟨none, none, none, none⟩ =
      ⟨some (.invalidFormat "csv"), false, false, "csv", 5⟩ ∧
    runSetup ⟨[], true, "", false, "pretty"⟩ ⟨none, none, none, none⟩ =
      ⟨none, true, true, "pretty", 5⟩ := by
  constructor <;> decide

/-- Claim C2 (amended): for every *valid* explicit format value (`json`,
`pretty` or `yaml`), if the pretty shorthand flag is set then the resolved
format is pretty — the shorthand overrides the explicit format — and the run
behaves exactly as it does with `format = pretty`. -/
theorem runSetup_pretty_flag_overrides
    (c : MonitorFlags) (env : Env)
    (hvalid : c.flagFormat = "json" ∨ c.flagFormat = "pretty" ∨
      c.flagFormat = "yaml")
    (hp : c.flagPretty = true) :
    runSetup c env = runSetup { c with flagFormat := "pretty" } env ∧
    (runSetup c env).resolvedFormat = "pretty" := by
  have hv' : ({ c with flagFormat := "pretty" } : MonitorFlags).flagFormat = "json" ∨
      ({ c with flagFormat := "pretty" } : MonitorFlags).flagFormat = "pretty" ∨
      ({ c with flagFormat := "pretty" } : MonitorFlags).flagFormat = "yaml" :=
    Or.inr (Or.inl rfl)
  constructor
  · unfold runSetup
    rw [if_neg (not_not_intro hvalid), if_neg (not_not_intro hv')]
    simp [hp]
  · unfold runSetup
    rw [if_neg (not_not_intro hvalid)]
    simp only [hp, if_true]
    rw [if_neg (by simp)]
    exact runSetupTail_format _ _ _

/-- Witness for the amended C2: with explicit `format = yaml` and the pretty
flag set, the run coincides with the `format = pretty` run and the resolved
format is pretty. -/
theorem runSetup_pretty_flag_overrides_witness :
    runSetup ⟨[], true, "", false, "yaml"⟩ ⟨none, none, none, none⟩ =
      runSetup ⟨[], true, "", false, "pretty"⟩ ⟨none, none, none, none⟩ ∧
    (runSetup ⟨[], true, "", false, "yaml"⟩
      ⟨none, none, none, none⟩).resolvedFormat = "pretty" :=
  runSetup_pretty_flag_overrides ⟨[], true, "", false, "yaml"⟩
    ⟨none, none, none, none⟩ (Or.inr (Or.inr rfl)) rfl

/-- Claim C8: supplying a log-level threshold with resolved format `json` or
`yaml` always fails validation with the conflict error, before the feed is
opened or the handler registered; supplying it with resolved format `pretty`
and a token that parses to a known severity is accepted — the setup completes
and the session goes active with that threshold. -/
theorem runSetup_conflict_check (c : MonitorFlags) (env : Env) :
    (c.flagPretty = false → (c.flagFormat = "json" ∨ c.flagFormat = "yaml") →
      c.flagLogLevel ≠ "" →
      runSetup c env = ⟨some .logLevelConflict, false, false, c.flagFormat, 5⟩) ∧
    (∀ lvl : Nat,
      (c.flagFormat = "json" ∨ c.flagFormat = "pretty" ∨ c.flagFormat = "yaml") →
      (if c.flagPretty then "pretty" else c.flagFormat) = "pretty" →
      parseLevel c.flagLogLevel = some lvl →
      env = ⟨none, none, none, none⟩ →
      runSetup c env = ⟨none, true, true, "pretty", lvl⟩) := by
  constructor
  · intro hp hjy hll
    have hvalid : c.flagFormat = "json" ∨ c.flagFormat = "pretty" ∨
        c.flagFormat = "yaml" := hjy.elim Or.inl (fun h => Or.inr (Or.inr h))
    unfold runSetup
    rw [if_neg (not_not_intro hvalid)]
    simp only [hp, if_false]
    rcases hjy with h | h <;> rw [h] <;>
      rw [if_pos (by simp [hll])] <;> simp
  · intro lvl hvalid hfmt hparse henv
    subst henv
    have hll : c.flagLogLevel ≠ "" := by
      intro h
      rw [h, (rfl : parseLevel "" = none)] at hparse
      exact Option.noConfusion hparse
    unfold runSetup
    rw [if_neg (not_not_intro hvalid)]
    simp only [hfmt]
    rw [if_neg (by simp)]
    simp [runSetupTail, hll, hparse]

/-- Witness for C8: `format = json, loglevel = info` is rejected with the
conflict error and nothing opened; `format = pretty, loglevel = info` is
accepted with threshold `info = 4`. -/
theorem runSetup_conflict_check_witness :
    runSetup ⟨[], false, "info", false, "json"⟩ ⟨none, none, none, none⟩ =
      ⟨some .logLevelConflict, false, false, "json", 5⟩ ∧
    runSetup ⟨[], false, "info", false, "pretty"⟩ ⟨none, none, none, none⟩ =
      ⟨none, true, true, "pretty", 4⟩ :=
  ⟨(runSetup_conflict_check ⟨[], false, "info", false, "json"⟩
      ⟨none, none, none, none⟩).1 rfl (Or.inl rfl) (by decide),
   (runSetup_conflict_check ⟨[], false, "info", false, "pretty"⟩
      ⟨none, none, none, none⟩).2 4 (Or.inr (Or.inl rfl)) rfl (by decide) rfl⟩

/-- Claim C9: the session coordinator returns exactly one terminal outcome
per invocation — the first value sent on the capacity-1 channel, whether a
renderer-reported error or the feed's termination result; the other signal
is discarded and the receive cannot block forever (a signal always exists,
since the wait goroutine always sends).  If the feed closes cleanly with
zero renderer errors, the returned value is no-error. -/
theorem run_first_signal_wins (t : SessionTrace) :
    signals t ≠ [] ∧
    (signals t).head? = some (runReturn t) ∧
    (t.rendererErrors = [] ∧ t.waitResult = none → runReturn t = none) := by
  refine ⟨?_, ?_, ?_⟩
  · cases h : (t.rendererErrors.take t.k).map some with
    | nil => simp [signals, h]
    | cons a l => simp [signals, h]
  · cases h : (t.rendererErrors.take t.k).map some with
    | nil => simp [signals, runReturn, h]
    | cons a l => simp [signals, runReturn, h]
  · rintro ⟨h1, h2⟩
    simp [runReturn, signals, h1, h2]

/-- Witness for C9: a feed that closes cleanly with zero events delivered
makes the run return no error. -/
theorem run_first_signal_wins_witness :
    ((⟨[], none, 0⟩ : SessionTrace).rendererErrors = [] ∧
      (⟨[], none, 0⟩ : SessionTrace).waitResult = none) ∧
    runReturn ⟨[], none, 0⟩ = none :=
  ⟨⟨rfl, rfl⟩, (run_first_signal_wins ⟨[], none, 0⟩).2.2 ⟨rfl, rfl⟩⟩
